import Mathlib

/-!
# easeprobe: the ssh probe and the file watcher

A shallow embedding of `probe/ssh/ssh.go` and `watch/file.go`.

* Go strings are Lean strings; `len` of a string is its UTF-8 byte size.
* Go `int` values (exit codes) are `Int`; no arithmetic is done on them.
* A Go method with a pointer receiver becomes a function returning the
  updated receiver next to the Go results.
* Calls into the network, the file system and the collaborating packages of
  the repository are fields of an explicit environment (`World`, `FS`).
* Logging calls only read the state and are left out.
* Opening and closing connections and sessions is recorded in an event
  trace, `defer` is an explicit stack unwound at return.
-/

namespace EaseProbe

/-! ## Errors -/

/-- Go `error` values the probe inspects: the two error types of
`golang.org/x/crypto/ssh` that `DoProbe` switches on, and every other error. -/
inductive GoError where
  | ExitMissingError
  | ExitError (status : Int) (text : String)
  | other (text : String)
deriving DecidableEq, Repr

/-- The method `Error()` of an error value. -/
def GoError.Error : GoError → String
  | .ExitMissingError => "wait: remote command exited without exit status or exit signal"
  | .ExitError _ text => text
  | .other text => text

/-- The call `fmt.Errorf(stage + ": %s", err)`. -/
def Errorf (stage : String) (err : GoError) : GoError :=
  .other (stage ++ ": " ++ err.Error)

/-! ## Resources and events -/

/-- The live resources one invocation of `RunSSHCmd` may own. -/
inductive Resource where
  | bastionClient
  | targetClient
  | session
deriving DecidableEq, Repr

/-- One entry of the trace of an invocation. -/
inductive Event where
  | opened (r : Resource)
  | closed (r : Resource)
deriving DecidableEq, Repr

/-- The deferred calls run at return, last registered first: `defers` is the
stack of deferred `Close()` calls with the most recent one at the head. -/
def runDefers (defers : List Resource) : List Event :=
  defers.map Event.closed

/-- Whether an event is a `Close()` call. -/
def Event.isClose : Event → Bool
  | .closed _ => true
  | .opened _ => false

/-! ## Data model -/

/-- Modelled from the spec: the declaration of the type `Endpoint` is not
among the sources; these are the fields that `ssh.go` reads and writes
(host, user, the two credentials and the live client). -/
structure Endpoint where
  PrivateKey : String
  Host : String
  User : String
  Password : String
  client : Option Resource
deriving DecidableEq, Repr

/-- Modelled from the spec: the declaration of `base.DefaultProbe` is not
among the sources; these are the fields `ssh.go` uses (kind, tag, name and
the timeout returned by `Timeout()`). -/
structure DefaultProbe where
  ProbeKind : String
  ProbeTag : String
  ProbeName : String
  ProbeTimeout : Nat
deriving DecidableEq, Repr

/-- A sample sent to the metrics sink by `ExportMetrics`. -/
inductive MetricEvent where
  | ExitCodeInc (name exit : String)
  | OutputLenSet (name exit : String) (value : Nat)
deriving DecidableEq, Repr

/-- The type `Server`; the two embedded structs are parent structures. The
metrics sink the field `metrics` points to is the list of samples sent. -/
structure Server extends DefaultProbe, Endpoint where
  Command : String
  Args : List String
  Env : List String
  Contain : String
  NotContain : String
  BastionID : String
  bastion : Option Endpoint
  exitCode : Int
  outputLen : Nat
  metrics : List MetricEvent
deriving DecidableEq, Repr

/-- The type `BastionMapType`, a Go map from identifier to endpoint, as an
association list read with `List.lookup` (first entry of a key wins). -/
abbrev BastionMapType := List (String × Endpoint)

/-- The rule of the content check that failed. -/
inductive CheckError where
  | missing (want : String)
  | forbidden (bad : String)
deriving DecidableEq, Repr

/-- What a remote command run produced: both buffers and the error. -/
structure RunResult where
  stdout : String
  stderr : String
  err : Option GoError
deriving DecidableEq, Repr

/-- The collaborators of `ssh.go` that are not part of it: methods of
`Endpoint` and `base.DefaultProbe`, `global.CommandLine`, the text of a
content-check error, and the calls into `golang.org/x/crypto/ssh`. Each
network call is the outcome of that call in the invocation at hand. -/
structure World where
  /-- The method `Endpoint.ParseHost`: the endpoint afterwards and the error. -/
  ParseHost : Endpoint → Endpoint × Option GoError
  /-- The method `Endpoint.SSHConfig(kind, name, timeout)`: the error, if any. -/
  SSHConfig : Endpoint → String → String → Nat → Option GoError
  /-- The method `DefaultProbe.Config(gConf, kind, tag, name, endpoint, fn)`. -/
  DefaultProbeConfig : DefaultProbe → String → String → String → String → DefaultProbe
  /-- The function `global.CommandLine(cmd, args)`. -/
  CommandLine : String → List String → String
  /-- The method `Error()` of the error returned by `probe.CheckOutput`. -/
  CheckErrorText : CheckError → String
  /-- The call `ssh.Dial("tcp", host, config)` made with the given endpoint. -/
  Dial : Endpoint → Option GoError
  /-- The call `bClient.Dial("tcp", host)`: the tunnel through the bastion. -/
  ClientDial : String → Option GoError
  /-- The call `ssh.NewClientConn(conn, host, config)` over the tunnel. -/
  NewClientConn : String → Option GoError
  /-- The call `client.NewSession()`. -/
  NewSession : Option GoError
  /-- The call `session.Run(cmd)` with the two buffers attached. -/
  Run : String → RunResult

/-! ## `ssh.go` -/

/-- The substring test `strings.Contains(s, sub)`. -/
def Contains (s sub : String) : Bool :=
  decide (sub.data <:+: s.data)

/-- Modelled from the spec: `probe.CheckOutput` is not among the sources. A
required substring that is configured and absent from the output, or a
forbidden substring that is configured and present, gives an error naming
the rule that failed; otherwise there is no error. -/
def CheckOutput (Contain NotContain Output : String) : Option CheckError :=
  if Contain.utf8ByteSize > 0 ∧ Contains Output Contain = false then
    some (.missing Contain)
  else if NotContain.utf8ByteSize > 0 ∧ Contains Output NotContain = true then
    some (.forbidden NotContain)
  else
    none

/-- The method `Server.Configure`. The settings `gConf` and the probe
function `fn` are only handed on to `DefaultProbe.Config`. -/
def Configure (w : World) (s : Server) (kind tag name endpoint : String)
    (bastionMap : BastionMapType) : Server × Option GoError :=
  let s1 : Server :=
    { s with toDefaultProbe := w.DefaultProbeConfig s.toDefaultProbe kind tag name endpoint }
  if s1.Password.utf8ByteSize ≤ 0 ∧ s1.PrivateKey.utf8ByteSize ≤ 0 then
    (s1, some (.other "password or private key is required"))
  else
    let s2 : Server :=
      if s1.BastionID.utf8ByteSize > 0 then
        match bastionMap.lookup s1.BastionID with
        | some bastion => { s1 with bastion := some bastion }
        | none => s1
      else s1
    let r := w.ParseHost s2.toEndpoint
    match r.2 with
    | some err => ({ s2 with toEndpoint := r.1 }, some err)
    | none => ({ s2 with toEndpoint := r.1 }, none)

/-- The method `Server.SetBastion`. -/
def SetBastion (w : World) (s : Server) (b : Endpoint) : Server :=
  let r := w.ParseHost b
  match r.2 with
  | some _ => s
  | none => { s with bastion := some r.1 }

/-- The result of a step that opens connections: the server afterwards, the
error, and the events of the step. -/
structure DialOut where
  server : Server
  err : Option GoError
  trace : List Event
deriving DecidableEq, Repr

/-- The method `Server.GetSSHClient`. -/
def GetSSHClient (w : World) (s : Server) : DialOut :=
  match w.SSHConfig s.toEndpoint s.ProbeKind s.ProbeName s.ProbeTimeout with
  | some err => ⟨s, some err, []⟩
  | none =>
    match w.Dial s.toEndpoint with
    | some err => ⟨s, some err, []⟩
    | none =>
      ⟨{ s with toEndpoint := { s.toEndpoint with client := some .targetClient } }, none,
        [.opened .targetClient]⟩

/-- The method `Server.GetSSHClientFromBastion`, with `b` the endpoint that
`s.bastion` points to (the caller has checked the pointer). -/
def GetSSHClientFromBastion (w : World) (s : Server) (b : Endpoint) : DialOut :=
  match w.SSHConfig b s.ProbeKind s.ProbeName s.ProbeTimeout with
  | some err => ⟨s, some (Errorf "Bastion" err), []⟩
  | none =>
    match w.Dial b with
    | some err => ⟨s, some (Errorf "Bastion" err), []⟩
    | none =>
      let s1 : Server := { s with bastion := some { b with client := some .bastionClient } }
      match w.SSHConfig s1.toEndpoint s1.ProbeKind s1.ProbeName s1.ProbeTimeout with
      | some err => ⟨s1, some (Errorf "Server" err), [.opened .bastionClient]⟩
      | none =>
        match w.ClientDial s1.Host with
        | some err => ⟨s1, some (Errorf "Server" err), [.opened .bastionClient]⟩
        | none =>
          match w.NewClientConn s1.Host with
          | some err => ⟨s1, some (Errorf "Server" err), [.opened .bastionClient]⟩
          | none =>
            ⟨{ s1 with toEndpoint := { s1.toEndpoint with client := some .targetClient } }, none,
              [.opened .bastionClient, .opened .targetClient]⟩

/-- The result of `RunSSHCmd`: the two Go results, the server afterwards and
the events of the invocation in order. -/
structure RunOut where
  output : String
  err : Option GoError
  server : Server
  trace : List Event
deriving DecidableEq, Repr

/-- The loop of `RunSSHCmd` that turns the environment assignments into
export statements. -/
def exportEnv (env : List String) : String :=
  env.foldl (fun acc e => acc ++ ("export " ++ e ++ ";")) ""

/-- The part of `RunSSHCmd` after the client is there: `defers` holds the
`Close()` calls deferred so far. -/
def runSession (w : World) (s : Server) (trace : List Event) (defers : List Resource) :
    RunOut :=
  let defers := Resource.targetClient :: defers
  match w.NewSession with
  | some err => ⟨"", some err, s, trace ++ runDefers defers⟩
  | none =>
    let trace := trace ++ [.opened .session]
    let defers := Resource.session :: defers
    let r := w.Run (exportEnv s.Env ++ w.CommandLine s.Command s.Args)
    match r.err with
    | some err => ⟨r.stderr, some err, s, trace ++ runDefers defers⟩
    | none => ⟨r.stdout, none, s, trace ++ runDefers defers⟩

/-- Whether `RunSSHCmd` takes the bastion path: the test
`s.bastion != nil && len(s.bastion.Host) > 0`. -/
def viaBastion (s : Server) : Bool :=
  match s.bastion with
  | some b => decide (b.Host.utf8ByteSize > 0)
  | none => false

/-- The direct branch of `RunSSHCmd` and the code after it. -/
def runDirect (w : World) (s : Server) : RunOut :=
  let d := GetSSHClient w s
  match d.err with
  | some err => ⟨"", some err, d.server, d.trace⟩
  | none => runSession w d.server d.trace []

/-- The bastion branch of `RunSSHCmd` and the code after it: the bastion
client's `Close()` is deferred once `GetSSHClientFromBastion` has returned
without error. -/
def runViaBastion (w : World) (s : Server) (b : Endpoint) : RunOut :=
  let d := GetSSHClientFromBastion w s b
  match d.err with
  | some err => ⟨"", some err, d.server, d.trace⟩
  | none => runSession w d.server d.trace [.bastionClient]

/-- The method `Server.RunSSHCmd`. -/
def RunSSHCmd (w : World) (s : Server) : RunOut :=
  match s.bastion with
  | some b => if b.Host.utf8ByteSize > 0 then runViaBastion w s b else runDirect w s
  | none => runDirect w s

/-- The method `Server.ExportMetrics`. -/
def ExportMetrics (s : Server) : Server :=
  { s with metrics := s.metrics ++
      [.ExitCodeInc s.ProbeName (toString s.exitCode),
       .OutputLenSet s.ProbeName (toString s.exitCode) s.outputLen] }

/-- The constant `UnknownExitCode` of `DoProbe`. -/
def UnknownExitCode : Int := 255

/-- The result of `DoProbe`: the two Go results, the server afterwards and
the events of the invocation. -/
structure ProbeOut where
  status : Bool
  message : String
  server : Server
  trace : List Event
deriving DecidableEq, Repr

/-- The method `Server.DoProbe`. -/
def DoProbe (w : World) (s : Server) : ProbeOut :=
  let r := RunSSHCmd w s
  let s1 : Server := { r.server with outputLen := r.output.utf8ByteSize }
  match r.err with
  | some err =>
    let s2 : Server :=
      match err with
      | .ExitMissingError => { s1 with exitCode := UnknownExitCode }
      | .ExitError status _ => { s1 with exitCode := status }
      | .other _ => s1
    ⟨false, err.Error ++ " - " ++ r.output, ExportMetrics s2, r.trace⟩
  | none =>
    match CheckOutput s1.Contain s1.NotContain r.output with
    | some cerr => ⟨false, "Error: " ++ w.CheckErrorText cerr, ExportMetrics s1, r.trace⟩
    | none => ⟨true, "SSH Command has been Run Successfully!", ExportMetrics s1, r.trace⟩

/-- The fields of a server that no step of `RunSSHCmd` writes. -/
structure SameConfig (a b : Server) : Prop where
  probe : a.toDefaultProbe = b.toDefaultProbe
  contain : a.Contain = b.Contain
  notContain : a.NotContain = b.NotContain
  exitCode : a.exitCode = b.exitCode
  metrics : a.metrics = b.metrics

/-! ## The bastion registry -/

/-- The two map objects `ParseAllBastionHost` touches: the package-level
variable `BastionMap` and the map the receiver points to. `recv` is `none`
when the receiver points to the package-level map itself. -/
structure Registry where
  BastionMap : BastionMapType
  recv : Option BastionMapType
deriving DecidableEq, Repr

/-- The map `*bm` of the receiver. -/
def Registry.bm (r : Registry) : BastionMapType :=
  r.recv.getD r.BastionMap

/-- The builtin `delete(m, k)`. -/
def mapDelete (m : BastionMapType) (k : String) : BastionMapType :=
  m.filter (fun p => p.1 != k)

/-- The assignment `m[k] = v`. -/
def mapSet (m : BastionMapType) (k : String) (v : Endpoint) : BastionMapType :=
  if (m.lookup k).isSome then m.map (fun p => if p.1 == k then (k, v) else p)
  else m ++ [(k, v)]

/-- The statement `delete(BastionMap, k)`: it names the package-level map. -/
def Registry.deleteGlobal (r : Registry) (k : String) : Registry :=
  { r with BastionMap := mapDelete r.BastionMap k }

/-- The statement `(*bm)[k] = v`: it names the receiver's map. -/
def Registry.setRecv (r : Registry) (k : String) (v : Endpoint) : Registry :=
  match r.recv with
  | some m => { r with recv := some (mapSet m k v) }
  | none => { r with BastionMap := mapSet r.BastionMap k v }

/-- One iteration of the loop of `ParseAllBastionHost` at key `k`; a key
whose entry is gone when the loop reaches it is not produced. -/
def parseStep (w : World) (r : Registry) (k : String) : Registry :=
  match r.bm.lookup k with
  | none => r
  | some v =>
    let p := w.ParseHost v
    match p.2 with
    | some _ => r.deleteGlobal k
    | none => r.setRecv k p.1

/-- The method `BastionMapType.ParseAllBastionHost`: the loop ranges over
the keys of the receiver's map, in the order of the list. -/
def ParseAllBastionHost (w : World) (r : Registry) : Registry :=
  ((r.bm.map Prod.fst).dedup).foldl (parseStep w) r

/-- The resolved form of an entry, when its host resolves. -/
def resolved (w : World) (v : Endpoint) : Option Endpoint :=
  match (w.ParseHost v).2 with
  | some _ => none
  | none => some (w.ParseHost v).1

/-! ## `file.go` -/

/-- A Go byte slice: `none` is the nil slice. -/
abbrev Bytes := Option (List Nat)

/-- The builtin `len` of a byte slice. -/
def Bytes.len (b : Bytes) : Nat :=
  (b.getD []).length

/-- The builtin `append(dst, src...)` on byte slices: appending nothing to
the nil slice gives the nil slice. -/
def sliceAppend (dst : Bytes) (src : List Nat) : Bytes :=
  match dst, src with
  | none, [] => none
  | none, x :: xs => some (x :: xs)
  | some d, src => some (d ++ src)

/-- The type `FileItem`. -/
structure FileItem where
  File : String
  CheckSum : Bytes
deriving DecidableEq, Repr

/-- The file system and `crypto/sha256` as `file.go` uses them. -/
structure FS where
  /-- The call `os.Open(file)`: a descriptor or the error. -/
  Open : String → Except GoError Nat
  /-- The call `io.Copy(sha, fd)`: the bytes written to the hash or the error. -/
  Copy : Nat → Except GoError (List Nat)
  /-- The digest of the bytes written to a `sha256.New()` hash. -/
  Sum256 : List Nat → List Nat
  /-- The digest has `sha256.Size` bytes. -/
  Sum256_size : ∀ data, (Sum256 data).length = 32

/-- The function `SHA256`: the two Go results (the deferred `fd.Close()` has
no part in them). -/
def SHA256 (fs : FS) (file : String) : Bytes × Option GoError :=
  match fs.Open file with
  | .error err => (none, some err)
  | .ok fd =>
    match fs.Copy fd with
    | .error err => (none, some err)
    | .ok data => (sliceAppend none (fs.Sum256 data), none)

/-- The loop of `CheckChange`: whether some index of `new` holds a byte that
differs from the byte of `old` there. -/
def byteDiffers (new old : List Nat) : Bool :=
  (List.range new.length).any (fun i => new.getD i 0 != old.getD i 0)

/-- The method `FileItem.CheckChange`: the two Go results and the item
afterwards. The deferred assignment of the new checksum runs at every
return after it is registered. -/
def CheckChange (fs : FS) (f : FileItem) : (Bool × Option GoError) × FileItem :=
  let r := SHA256 fs f.File
  match r.1 with
  | none => ((false, r.2), f)
  | some new =>
    let f1 : FileItem := { f with CheckSum := some new }
    if new.length ≠ Bytes.len f.CheckSum then ((true, none), f1)
    else if byteDiffers new (f.CheckSum.getD []) then ((true, none), f1)
    else ((false, none), f1)

/-! ## Sample environments -/

/-- A world in which the host `down:22` refuses connections, the host
`hidden:22` cannot be reached through a bastion, and the commands `exit 3`
and `kill` end with an exit status and without one. -/
def sampleWorld : World where
  ParseHost := fun e =>
    if e.Host = "" then (e, some (.other "host is empty")) else (e, none)
  SSHConfig := fun _ _ _ _ => none
  DefaultProbeConfig := fun p kind tag name _ =>
    { p with ProbeKind := kind, ProbeTag := tag, ProbeName := name }
  CommandLine := fun cmd args => args.foldl (fun acc a => acc ++ " " ++ a) cmd
  CheckErrorText := fun
    | .missing want => "the output does not contain [" ++ want ++ "]"
    | .forbidden bad => "the output contains [" ++ bad ++ "]"
  Dial := fun e =>
    if e.Host = "down:22" then some (.other "dial tcp: connection refused") else none
  ClientDial := fun h =>
    if h = "hidden:22" then some (.other "ssh: rejected: connect failed") else none
  NewClientConn := fun _ => none
  NewSession := none
  Run := fun cmd =>
    if cmd = "exit 3" then ⟨"", "boom", some (.ExitError 3 "Process exited with status 3")⟩
    else if cmd = "kill" then ⟨"", "", some .ExitMissingError⟩
    else ⟨"OK", "", none⟩

/-- A server with a password and no bastion that runs `exit 3`. -/
def sampleServer : Server where
  ProbeKind := "ssh"
  ProbeTag := ""
  ProbeName := "probe"
  ProbeTimeout := 30
  PrivateKey := ""
  Host := "target:22"
  User := "root"
  Password := "secret"
  client := none
  Command := "exit"
  Args := ["3"]
  Env := []
  Contain := ""
  NotContain := ""
  BastionID := ""
  bastion := none
  exitCode := 0
  outputLen := 0
  metrics := []

/-- A bastion endpoint. -/
def sampleBastion : Endpoint where
  PrivateKey := ""
  Host := "jump:22"
  User := "ops"
  Password := "secret"
  client := none

/-- A file system with the readable file `1.txt`, the file `locked.txt`
that opens and cannot be read, and no other file. -/
def sampleFS : FS where
  Open := fun file =>
    if file = "1.txt" then .ok 3
    else if file = "locked.txt" then .ok 4
    else .error (.other "no such file or directory")
  Copy := fun fd => if fd = 3 then .ok [116, 101, 115, 116] else .error (.other "Errors")
  Sum256 := fun data => List.replicate 31 0 ++ [data.sum % 256]
  Sum256_size := fun data => by simp

/-- A bastion endpoint whose host does not resolve in `sampleWorld`. -/
def brokenBastion : Endpoint :=
  { sampleBastion with Host := "" }

/-! ## Helper lemmas and theorems -/

theorem utf8ByteSize_go_pos (c : Char) (cs : List Char) :
    0 < String.utf8ByteSize.go (c :: cs) := by
  simp only [String.utf8ByteSize.go]
  have := Char.utf8Size_pos c
  omega

theorem utf8ByteSize_eq_zero_iff (t : String) : t.utf8ByteSize = 0 ↔ t = "" := by
  constructor
  · intro h
    rcases t with ⟨cs⟩
    cases cs with
    | nil => rfl
    | cons c cs =>
      have := utf8ByteSize_go_pos c cs
      simp only [String.utf8ByteSize] at h
      omega
  · intro h
    subst h
    rfl

theorem GetSSHClient_same (w : World) (s : Server) : SameConfig (GetSSHClient w s).server s := by
  unfold GetSSHClient
  split
  · exact ⟨rfl, rfl, rfl, rfl, rfl⟩
  · split <;> exact ⟨rfl, rfl, rfl, rfl, rfl⟩

theorem GetSSHClientFromBastion_same (w : World) (s : Server) (b : Endpoint) :
    SameConfig (GetSSHClientFromBastion w s b).server s := by
  unfold GetSSHClientFromBastion
  dsimp only
  repeat' split
  all_goals exact ⟨rfl, rfl, rfl, rfl, rfl⟩

theorem runSession_server (w : World) (s : Server) (tr : List Event) (ds : List Resource) :
    (runSession w s tr ds).server = s := by
  unfold runSession
  dsimp only
  repeat' split
  all_goals rfl

theorem runDirect_same (w : World) (s : Server) : SameConfig (runDirect w s).server s := by
  unfold runDirect
  dsimp only
  split
  · exact GetSSHClient_same w s
  · rw [runSession_server]
    exact GetSSHClient_same w s

theorem runViaBastion_same (w : World) (s : Server) (b : Endpoint) :
    SameConfig (runViaBastion w s b).server s := by
  unfold runViaBastion
  dsimp only
  split
  · exact GetSSHClientFromBastion_same w s b
  · rw [runSession_server]
    exact GetSSHClientFromBastion_same w s b

theorem RunSSHCmd_same (w : World) (s : Server) : SameConfig (RunSSHCmd w s).server s := by
  unfold RunSSHCmd
  split
  · split
    · exact runViaBastion_same w s _
    · exact runDirect_same w s
  · exact runDirect_same w s


theorem utf8ByteSize_pos_iff (t : String) : t.utf8ByteSize > 0 ↔ t ≠ "" := by
  rw [Ne, ← utf8ByteSize_eq_zero_iff]
  omega

theorem CheckOutput_eq_none_iff (c n out : String) :
    CheckOutput c n out = none ↔
      (c = "" ∨ c.data <:+: out.data) ∧ (n = "" ∨ ¬ n.data <:+: out.data) := by
  unfold CheckOutput Contains
  simp only [utf8ByteSize_pos_iff]
  by_cases h1 : c = "" <;> by_cases h2 : n = "" <;>
    by_cases h3 : c.data <:+: out.data <;> by_cases h4 : n.data <:+: out.data <;>
    simp [h1, h2, h3, h4]

/-- C1: when `RunSSHCmd` fails with an `ssh.ExitError` of exit status `n`
and returns the captured stderr `e`, `DoProbe` returns status false, sets
the exit code of the server to `n`, and returns the message made of the
text of the error, then `" - "`, then `e`: the message starts with the text
of the error and ends with the captured stderr. -/
theorem DoProbe_exit_error (w : World) (s : Server) (n : Int) (t e : String)
    (hout : (RunSSHCmd w s).output = e)
    (herr : (RunSSHCmd w s).err = some (.ExitError n t)) :
    (DoProbe w s).status = false ∧
    (DoProbe w s).server.exitCode = n ∧
    (DoProbe w s).message = (GoError.ExitError n t).Error ++ " - " ++ e ∧
    (GoError.ExitError n t).Error.data <+: (DoProbe w s).message.data ∧
    e.data <:+ (DoProbe w s).message.data := by
  have hm : (DoProbe w s).message = (GoError.ExitError n t).Error ++ " - " ++ e := by
    simp only [DoProbe, herr, hout]
  refine ⟨?_, ?_, hm, ?_, ?_⟩
  · simp only [DoProbe, herr]
  · simp only [DoProbe, herr, ExportMetrics]
  · rw [hm]
    simp only [String.data_append, List.append_assoc]
    exact ⟨_, rfl⟩
  · rw [hm]
    simp only [String.data_append]
    exact ⟨_, rfl⟩

theorem DoProbe_exit_error_witness :
    (DoProbe sampleWorld sampleServer).status = false ∧
    (DoProbe sampleWorld sampleServer).server.exitCode = 3 ∧
    (DoProbe sampleWorld sampleServer).message = "Process exited with status 3 - boom" ∧
    "Process exited with status 3".data <+: (DoProbe sampleWorld sampleServer).message.data ∧
    "boom".data <:+ (DoProbe sampleWorld sampleServer).message.data :=
  DoProbe_exit_error sampleWorld sampleServer 3 "Process exited with status 3" "boom" rfl rfl

/-- C2: when `RunSSHCmd` fails with an `ssh.ExitMissingError`, `DoProbe`
returns status false and sets the exit code of the server to 255, whatever
the exit code was before. -/
theorem DoProbe_exit_missing (w : World) (s : Server)
    (herr : (RunSSHCmd w s).err = some .ExitMissingError) :
    (DoProbe w s).status = false ∧ (DoProbe w s).server.exitCode = 255 := by
  constructor
  · simp only [DoProbe, herr]
  · simp only [DoProbe, herr, ExportMetrics, UnknownExitCode]

theorem DoProbe_exit_missing_witness :
    (DoProbe sampleWorld { sampleServer with Command := "kill", Args := [], exitCode := 7 }).status
      = false ∧
    (DoProbe sampleWorld { sampleServer with Command := "kill", Args := [], exitCode := 7 }
      ).server.exitCode = 255 :=
  DoProbe_exit_missing sampleWorld { sampleServer with Command := "kill", Args := [], exitCode := 7 }
    rfl


/-- C3: when `RunSSHCmd` returns no error and the output `out`, `DoProbe`
returns status true exactly when `Contain` is empty or occurs in `out`, and
`NotContain` is empty or does not occur in `out`; with status true the
message is the fixed success text, with status false it is `"Error: "`
followed by the text of the content-check error. -/
theorem DoProbe_content_check (w : World) (s : Server) (out : String)
    (hout : (RunSSHCmd w s).output = out) (herr : (RunSSHCmd w s).err = none) :
    ((DoProbe w s).status = true ↔
      (s.Contain = "" ∨ s.Contain.data <:+: out.data) ∧
      (s.NotContain = "" ∨ ¬ s.NotContain.data <:+: out.data)) ∧
    ((DoProbe w s).status = true →
      (DoProbe w s).message = "SSH Command has been Run Successfully!") ∧
    ((DoProbe w s).status = false →
      ∃ cerr, CheckOutput s.Contain s.NotContain out = some cerr ∧
        (DoProbe w s).message = "Error: " ++ w.CheckErrorText cerr) := by
  have hc := (RunSSHCmd_same w s).contain
  have hn := (RunSSHCmd_same w s).notContain
  have hiff := CheckOutput_eq_none_iff s.Contain s.NotContain out
  cases hck : CheckOutput s.Contain s.NotContain out with
  | none =>
    have hd : (DoProbe w s).status = true ∧
        (DoProbe w s).message = "SSH Command has been Run Successfully!" := by
      simp only [DoProbe, herr, hout, hc, hn, hck, and_self]
    rw [hck] at hiff
    refine ⟨⟨fun _ => hiff.mp rfl, fun _ => hd.1⟩, fun _ => hd.2, fun hf => ?_⟩
    rw [hd.1] at hf
    cases hf
  | some cerr =>
    have hd : (DoProbe w s).status = false ∧
        (DoProbe w s).message = "Error: " ++ w.CheckErrorText cerr := by
      simp only [DoProbe, herr, hout, hc, hn, hck, and_self]
    rw [hck] at hiff
    refine ⟨⟨fun ht => ?_, fun hr => ?_⟩, fun ht => ?_, fun _ => ⟨cerr, rfl, hd.2⟩⟩
    · rw [hd.1] at ht
      cases ht
    · have := hiff.mpr hr
      cases this
    · rw [hd.1] at ht
      cases ht

theorem DoProbe_content_check_witness :
    ((DoProbe sampleWorld { sampleServer with Command := "ls", Contain := "ready" }).status = true ↔
      ("ready" = "" ∨ "ready".data <:+: "OK".data) ∧
      ("" = "" ∨ ¬ "".data <:+: "OK".data)) ∧
    ((DoProbe sampleWorld { sampleServer with Command := "ls", Contain := "ready" }).status = true →
      (DoProbe sampleWorld { sampleServer with Command := "ls", Contain := "ready" }).message =
        "SSH Command has been Run Successfully!") ∧
    ((DoProbe sampleWorld { sampleServer with Command := "ls", Contain := "ready" }).status = false →
      ∃ cerr, CheckOutput "ready" "" "OK" = some cerr ∧
        (DoProbe sampleWorld { sampleServer with Command := "ls", Contain := "ready" }).message =
          "Error: " ++ sampleWorld.CheckErrorText cerr) :=
  DoProbe_content_check sampleWorld { sampleServer with Command := "ls", Contain := "ready" } "OK"
    rfl rfl

/-- C4: when `RunSSHCmd` returns no error and the content check fails,
`DoProbe` returns status false and leaves the exit code of the server as it
was before the invocation; the two samples sent to the metrics sink carry
that earlier exit code as their exit label. -/
theorem DoProbe_mismatch_keeps_exitCode (w : World) (s : Server) (cerr : CheckError)
    (herr : (RunSSHCmd w s).err = none)
    (hck : CheckOutput s.Contain s.NotContain (RunSSHCmd w s).output = some cerr) :
    (DoProbe w s).status = false ∧
    (DoProbe w s).server.exitCode = s.exitCode ∧
    (DoProbe w s).server.metrics = s.metrics ++
      [.ExitCodeInc s.ProbeName (toString s.exitCode),
       .OutputLenSet s.ProbeName (toString s.exitCode) (RunSSHCmd w s).output.utf8ByteSize] := by
  have hs := RunSSHCmd_same w s
  have hname : (RunSSHCmd w s).server.ProbeName = s.ProbeName := by rw [hs.probe]
  refine ⟨?_, ?_, ?_⟩
  · simp only [DoProbe, herr, hs.contain, hs.notContain, hck]
  · simp only [DoProbe, herr, hs.contain, hs.notContain, hck, ExportMetrics, hs.exitCode]
  · simp only [DoProbe, herr, hs.contain, hs.notContain, hck, ExportMetrics, hs.exitCode,
      hs.metrics, hname]

theorem DoProbe_mismatch_keeps_exitCode_witness :
    (DoProbe sampleWorld
      { sampleServer with Command := "ls", Contain := "ready", exitCode := 3 }).status = false ∧
    (DoProbe sampleWorld
      { sampleServer with Command := "ls", Contain := "ready", exitCode := 3 }).server.exitCode
        = 3 ∧
    (DoProbe sampleWorld
      { sampleServer with Command := "ls", Contain := "ready", exitCode := 3 }).server.metrics
        = [] ++ [.ExitCodeInc "probe" (toString (3 : Int)),
           .OutputLenSet "probe" (toString (3 : Int)) "OK".utf8ByteSize] :=
  DoProbe_mismatch_keeps_exitCode sampleWorld
    { sampleServer with Command := "ls", Contain := "ready", exitCode := 3 } (.missing "ready")
    rfl rfl

/-- C5: for a server whose `Password` and `PrivateKey` are both empty,
whatever the other fields, the arguments and the bastion map, `Configure`
returns the error "password or private key is required" and leaves the
bastion reference as it was. -/
theorem Configure_requires_credential (w : World) (s : Server)
    (kind tag name endpoint : String) (bastionMap : BastionMapType)
    (hpw : s.Password = "") (hkey : s.PrivateKey = "") :
    (Configure w s kind tag name endpoint bastionMap).2 =
      some (.other "password or private key is required") ∧
    (Configure w s kind tag name endpoint bastionMap).2.map GoError.Error =
      some "password or private key is required" ∧
    (Configure w s kind tag name endpoint bastionMap).1.bastion = s.bastion := by
  have h0 : ("" : String).utf8ByteSize = 0 := rfl
  simp [Configure, hpw, hkey, GoError.Error, h0]

theorem Configure_requires_credential_witness :
    (Configure sampleWorld { sampleServer with Password := "", BastionID := "b1" }
      "ssh" "" "probe" "exit 3" [("b1", sampleBastion)]).2 =
      some (.other "password or private key is required") ∧
    (Configure sampleWorld { sampleServer with Password := "", BastionID := "b1" }
      "ssh" "" "probe" "exit 3" [("b1", sampleBastion)]).2.map GoError.Error =
      some "password or private key is required" ∧
    (Configure sampleWorld { sampleServer with Password := "", BastionID := "b1" }
      "ssh" "" "probe" "exit 3" [("b1", sampleBastion)]).1.bastion = none :=
  Configure_requires_credential sampleWorld { sampleServer with Password := "", BastionID := "b1" }
    "ssh" "" "probe" "exit 3" [("b1", sampleBastion)] rfl rfl


/-- C6, as stated, fails: a server with a password, a host that parses and
the identifier `nope` that is no key of the (empty) bastion map, whose
bastion reference was set before the call, is configured without error and
still holds that bastion reference, and `RunSSHCmd` takes the bastion
path. -/
theorem Configure_unknown_bastion_keeps_old_reference :
    ((({ sampleServer with BastionID := "nope", bastion := some sampleBastion } : Server).Password
        ≠ "" ∨
      ({ sampleServer with BastionID := "nope", bastion := some sampleBastion } : Server).PrivateKey
        ≠ "") ∧
     (sampleWorld.ParseHost
        ({ sampleServer with BastionID := "nope", bastion := some sampleBastion } : Server
          ).toEndpoint).2 = none ∧
     ({ sampleServer with BastionID := "nope", bastion := some sampleBastion } : Server).BastionID
        ≠ "" ∧
     List.lookup "nope" ([] : BastionMapType) = none) ∧
    (Configure sampleWorld { sampleServer with BastionID := "nope", bastion := some sampleBastion }
      "ssh" "" "probe" "exit 3" []).2 = none ∧
    (Configure sampleWorld { sampleServer with BastionID := "nope", bastion := some sampleBastion }
      "ssh" "" "probe" "exit 3" []).1.bastion = some sampleBastion ∧
    RunSSHCmd sampleWorld
      (Configure sampleWorld { sampleServer with BastionID := "nope", bastion := some sampleBastion }
        "ssh" "" "probe" "exit 3" []).1 =
    runViaBastion sampleWorld
      (Configure sampleWorld { sampleServer with BastionID := "nope", bastion := some sampleBastion }
        "ssh" "" "probe" "exit 3" []).1 sampleBastion := by
  refine ⟨⟨Or.inl (by decide), rfl, by decide, rfl⟩, rfl, rfl, rfl⟩

/-- C6, amended: for a server with a credential whose own host parses and
whose `BastionID` is no key of the bastion map, `Configure` returns no error
and does not change the bastion reference; when the reference was unset
before the call it is unset afterwards and `RunSSHCmd` takes the direct
path. -/
theorem Configure_unknown_bastion (w : World) (s : Server)
    (kind tag name endpoint : String) (bastionMap : BastionMapType)
    (hcred : s.Password ≠ "" ∨ s.PrivateKey ≠ "")
    (hparse : (w.ParseHost s.toEndpoint).2 = none)
    (hkey : bastionMap.lookup s.BastionID = none) :
    (Configure w s kind tag name endpoint bastionMap).2 = none ∧
    (Configure w s kind tag name endpoint bastionMap).1.bastion = s.bastion ∧
    (s.bastion = none →
      (Configure w s kind tag name endpoint bastionMap).1.bastion = none ∧
      RunSSHCmd w (Configure w s kind tag name endpoint bastionMap).1 =
        runDirect w (Configure w s kind tag name endpoint bastionMap).1) := by
  have hc : ¬ (s.Password.utf8ByteSize ≤ 0 ∧ s.PrivateKey.utf8ByteSize ≤ 0) := by
    rintro ⟨h1, h2⟩
    rcases hcred with h | h
    · exact h ((utf8ByteSize_eq_zero_iff _).mp (by omega))
    · exact h ((utf8ByteSize_eq_zero_iff _).mp (by omega))
  have hb : (Configure w s kind tag name endpoint bastionMap).1.bastion = s.bastion := by
    simp only [Configure, hc, hkey, hparse, if_false, ite_self]
  refine ⟨?_, hb, fun hn => ⟨hb.trans hn, ?_⟩⟩
  · simp only [Configure, hc, hkey, hparse, if_false, ite_self]
  · unfold RunSSHCmd
    rw [hb, hn]

theorem Configure_unknown_bastion_witness :
    (Configure sampleWorld { sampleServer with BastionID := "nope" }
      "ssh" "" "probe" "exit 3" [("b1", sampleBastion)]).2 = none ∧
    (Configure sampleWorld { sampleServer with BastionID := "nope" }
      "ssh" "" "probe" "exit 3" [("b1", sampleBastion)]).1.bastion = none ∧
    (({ sampleServer with BastionID := "nope" } : Server).bastion = none →
      (Configure sampleWorld { sampleServer with BastionID := "nope" }
        "ssh" "" "probe" "exit 3" [("b1", sampleBastion)]).1.bastion = none ∧
      RunSSHCmd sampleWorld (Configure sampleWorld { sampleServer with BastionID := "nope" }
        "ssh" "" "probe" "exit 3" [("b1", sampleBastion)]).1 =
        runDirect sampleWorld (Configure sampleWorld { sampleServer with BastionID := "nope" }
          "ssh" "" "probe" "exit 3" [("b1", sampleBastion)]).1) :=
  Configure_unknown_bastion sampleWorld { sampleServer with BastionID := "nope" }
    "ssh" "" "probe" "exit 3" [("b1", sampleBastion)] (Or.inl (by decide)) rfl rfl

/-- C8 at the failing input: on the bastion path, with the bastion dial
successful and the tunnel dial to the target failing, `RunSSHCmd` returns
the "Server:" error and the only event of the invocation is the opening of
the bastion client, which is never closed. -/
theorem RunSSHCmd_leaks_bastion_client :
    (RunSSHCmd sampleWorld
      { sampleServer with Host := "hidden:22", bastion := some sampleBastion }).err =
      some (.other "Server: ssh: rejected: connect failed") ∧
    (RunSSHCmd sampleWorld
      { sampleServer with Host := "hidden:22", bastion := some sampleBastion }).trace =
      [.opened .bastionClient] ∧
    Event.closed .bastionClient ∉
      (RunSSHCmd sampleWorld
        { sampleServer with Host := "hidden:22", bastion := some sampleBastion }).trace := by
  refine ⟨rfl, rfl, by decide⟩

theorem GetSSHClientFromBastion_trace (w : World) (s : Server) (b : Endpoint)
    (hdial : (GetSSHClientFromBastion w s b).err = none) :
    (GetSSHClientFromBastion w s b).trace = [.opened .bastionClient, .opened .targetClient] := by
  revert hdial
  unfold GetSSHClientFromBastion
  dsimp only
  repeat' split
  all_goals simp

theorem runSession_trace (w : World) (s : Server) (tr : List Event) (ds : List Resource) :
    (runSession w s tr ds).trace =
      tr ++ (if w.NewSession = none then [.opened .session, .closed .session] else []) ++
        runDefers (.targetClient :: ds) := by
  unfold runSession
  dsimp only
  split
  · next err h => simp [h]
  · next h =>
    split <;> simp [h, runDefers]

/-- C9: when `RunSSHCmd` takes the bastion path and both the bastion and
the target connection are established, the events of the invocation are the
two openings, the opening and closing of the session if it was opened, then
the closing of the target client, then the closing of the bastion client;
the close events are exactly session (if opened), target, bastion in that
order, and each client is closed exactly once. -/
theorem RunSSHCmd_close_order (w : World) (s : Server) (b : Endpoint)
    (hb : s.bastion = some b) (hhost : b.Host.utf8ByteSize > 0)
    (hdial : (GetSSHClientFromBastion w s b).err = none) :
    (RunSSHCmd w s).trace =
      [.opened .bastionClient, .opened .targetClient] ++
      (if w.NewSession = none then [.opened .session, .closed .session] else []) ++
      [.closed .targetClient, .closed .bastionClient] ∧
    (RunSSHCmd w s).trace.filter Event.isClose =
      (if w.NewSession = none then [.closed .session] else []) ++
      [.closed .targetClient, .closed .bastionClient] ∧
    (RunSSHCmd w s).trace.count (.closed .targetClient) = 1 ∧
    (RunSSHCmd w s).trace.count (.closed .bastionClient) = 1 ∧
    (RunSSHCmd w s).trace.count (.closed .session) ≤ 1 := by
  have ht : (RunSSHCmd w s).trace =
      [.opened .bastionClient, .opened .targetClient] ++
      (if w.NewSession = none then [.opened .session, .closed .session] else []) ++
      [.closed .targetClient, .closed .bastionClient] := by
    unfold RunSSHCmd
    rw [hb]
    dsimp only
    rw [if_pos hhost]
    unfold runViaBastion
    dsimp only
    rw [hdial]
    dsimp only
    rw [runSession_trace, GetSSHClientFromBastion_trace w s b hdial]
    rfl
  rw [ht]
  by_cases hn : w.NewSession = none
  · rw [if_pos hn, if_pos hn]
    refine ⟨rfl, rfl, by decide, by decide, by decide⟩
  · rw [if_neg hn, if_neg hn]
    refine ⟨rfl, rfl, by decide, by decide, by decide⟩

theorem RunSSHCmd_close_order_witness :
    (RunSSHCmd sampleWorld { sampleServer with bastion := some sampleBastion }).trace =
      [.opened .bastionClient, .opened .targetClient] ++
      (if sampleWorld.NewSession = none then [.opened .session, .closed .session] else []) ++
      [.closed .targetClient, .closed .bastionClient] ∧
    (RunSSHCmd sampleWorld { sampleServer with bastion := some sampleBastion }).trace.filter
      Event.isClose =
      (if sampleWorld.NewSession = none then [.closed .session] else []) ++
      [.closed .targetClient, .closed .bastionClient] ∧
    (RunSSHCmd sampleWorld { sampleServer with bastion := some sampleBastion }).trace.count
      (.closed .targetClient) = 1 ∧
    (RunSSHCmd sampleWorld { sampleServer with bastion := some sampleBastion }).trace.count
      (.closed .bastionClient) = 1 ∧
    (RunSSHCmd sampleWorld { sampleServer with bastion := some sampleBastion }).trace.count
      (.closed .session) ≤ 1 :=
  RunSSHCmd_close_order sampleWorld { sampleServer with bastion := some sampleBastion }
    sampleBastion rfl (by decide) rfl


theorem byteDiffers_iff (new old : List Nat) (hlen : new.length = old.length) :
    byteDiffers new old = true ↔ new ≠ old := by
  unfold byteDiffers
  rw [List.any_eq_true]
  constructor
  · rintro ⟨i, _, hi⟩ heq
    subst heq
    simp at hi
  · intro hne
    by_contra hno
    apply hne
    apply List.ext_getElem hlen
    intro i h1 h2
    by_contra hd
    apply hno
    refine ⟨i, List.mem_range.mpr h1, ?_⟩
    simp only [List.getD_eq_getElem?_getD, List.getElem?_eq_getElem h1,
      List.getElem?_eq_getElem h2, Option.getD_some, bne_iff_ne, ne_eq]
    exact hd

theorem changed_iff (new old : List Nat) :
    (if new.length ≠ old.length then true else byteDiffers new old) = decide (new ≠ old) := by
  by_cases hlen : new.length = old.length
  · rw [if_neg (by simpa using hlen)]
    by_cases hne : new = old
    · have : ¬ byteDiffers new old = true := fun h => (byteDiffers_iff new old hlen).mp h hne
      simp only [Bool.not_eq_true] at this
      rw [this]
      simp [hne]
    · have := (byteDiffers_iff new old hlen).mpr hne
      simp [hne, this]
  · rw [if_pos hlen]
    have : new ≠ old := fun h => hlen (by rw [h])
    simp [this]

theorem CheckChange_of_hash (fs : FS) (f : FileItem) (h : List Nat)
    (hsum : (SHA256 fs f.File).1 = some h) :
    CheckChange fs f = ((decide (h ≠ f.CheckSum.getD []), none), { f with CheckSum := some h }) := by
  have := changed_iff h (f.CheckSum.getD [])
  unfold CheckChange
  dsimp only
  rw [hsum]
  dsimp only [Bytes.len]
  rw [← this]
  split
  · rfl
  · split <;> simp_all

theorem SHA256_cases (fs : FS) (file : String) :
    (∃ h, SHA256 fs file = (some h, none) ∧ h.length = 32) ∨
    (∃ e, SHA256 fs file = (none, some e)) := by
  unfold SHA256
  split
  · exact Or.inr ⟨_, rfl⟩
  · split
    · exact Or.inr ⟨_, rfl⟩
    · next data _ =>
      left
      have hs := fs.Sum256_size data
      cases hd : fs.Sum256 data with
      | nil => rw [hd] at hs; cases hs
      | cons x xs => exact ⟨x :: xs, rfl, by rw [← hd]; exact hs⟩

/-- C10: if hashing the file of an item succeeds with checksum `h`,
`CheckChange` returns no error and reports a change exactly when `h` differs
from the stored checksum, stores `h`, and an immediate second call reports
no change; if hashing fails with error `e`, `CheckChange` returns false with
`e` and leaves the item as it was; hashing always ends in one of the two
ways. -/
theorem CheckChange_spec (fs : FS) (f : FileItem) :
    (∀ h, SHA256 fs f.File = (some h, none) →
      (CheckChange fs f).1 = (decide (h ≠ f.CheckSum.getD []), none) ∧
      (CheckChange fs f).2 = { f with CheckSum := some h } ∧
      (CheckChange fs (CheckChange fs f).2).1 = (false, none)) ∧
    (∀ e, SHA256 fs f.File = (none, some e) → CheckChange fs f = ((false, some e), f)) ∧
    ((∃ h, SHA256 fs f.File = (some h, none)) ∨ (∃ e, SHA256 fs f.File = (none, some e))) := by
  refine ⟨fun h hs => ?_, fun e hs => ?_, ?_⟩
  · have h1 := CheckChange_of_hash fs f h (by rw [hs])
    have h2 := CheckChange_of_hash fs { f with CheckSum := some h } h (by rw [hs])
    rw [h1]
    refine ⟨rfl, rfl, ?_⟩
    dsimp only
    rw [h2]
    simp
  · unfold CheckChange
    dsimp only
    rw [hs]
  · rcases SHA256_cases fs f.File with ⟨h, hh, _⟩ | ⟨e, he⟩
    · exact Or.inl ⟨h, hh⟩
    · exact Or.inr ⟨e, he⟩

theorem CheckChange_spec_witness :
    ((CheckChange sampleFS ⟨"1.txt", some [120, 121, 122]⟩).1 =
        (decide (List.replicate 31 0 ++ [192] ≠ (some [120, 121, 122] : Bytes).getD []), none) ∧
      (CheckChange sampleFS ⟨"1.txt", some [120, 121, 122]⟩).2 =
        { (⟨"1.txt", some [120, 121, 122]⟩ : FileItem) with
          CheckSum := some (List.replicate 31 0 ++ [192]) } ∧
      (CheckChange sampleFS (CheckChange sampleFS ⟨"1.txt", some [120, 121, 122]⟩).2).1 =
        (false, none)) ∧
    CheckChange sampleFS ⟨"locked.txt", some [120, 121, 122]⟩ =
      ((false, some (.other "Errors")), ⟨"locked.txt", some [120, 121, 122]⟩) :=
  ⟨(CheckChange_spec sampleFS ⟨"1.txt", some [120, 121, 122]⟩).1
      (List.replicate 31 0 ++ [192]) (by decide),
    (CheckChange_spec sampleFS ⟨"locked.txt", some [120, 121, 122]⟩).2.1 (.other "Errors")
      (by decide)⟩


/-- C7 at the failing input: on a registry that is not the package-level
`BastionMap`, the entry `b1` whose host does not resolve is still there
after `ParseAllBastionHost`; the same entries held in the package-level map
lose `b1`. -/
theorem ParseAllBastionHost_keeps_failed_entry :
    (sampleWorld.ParseHost brokenBastion).2 = some (.other "host is empty") ∧
    (ParseAllBastionHost sampleWorld
      ⟨[], some [("b1", brokenBastion), ("b2", sampleBastion)]⟩).bm.lookup "b1" =
      some brokenBastion ∧
    (ParseAllBastionHost sampleWorld
      ⟨[("b1", brokenBastion), ("b2", sampleBastion)], none⟩).bm.lookup "b1" = none := by
  refine ⟨rfl, ?_, ?_⟩
  · decide
  · decide

theorem lookup_cons_ite (m : BastionMapType) (a k : String) (v : Endpoint) :
    List.lookup k ((a, v) :: m) = if k = a then some v else m.lookup k := by
  rw [List.lookup_cons]
  by_cases h : k = a
  · simp [h]
  · have : (k == a) = false := by simpa using h
    simp [h, this]

theorem lookup_mapDelete (m : BastionMapType) (k k' : String) :
    (mapDelete m k).lookup k' = if k' = k then none else m.lookup k' := by
  unfold mapDelete
  induction m with
  | nil => simp
  | cons p m ih =>
    obtain ⟨a, v⟩ := p
    by_cases hak : a = k
    · subst hak
      rw [List.filter_cons_of_neg (by simp), ih, lookup_cons_ite]
      by_cases hk : k' = a <;> simp [hk]
    · rw [List.filter_cons_of_pos (by simpa using hak), lookup_cons_ite, lookup_cons_ite, ih]
      by_cases hk : k' = a
      · subst hk
        simp [hak]
      · simp [hk]

theorem lookup_map_set (m : BastionMapType) (k k' : String) (v : Endpoint) :
    (m.map (fun p => if p.1 == k then (k, v) else p)).lookup k' =
      if k' = k then (m.lookup k).map (fun _ => v) else m.lookup k' := by
  induction m with
  | nil => simp
  | cons p m ih =>
    obtain ⟨a, u⟩ := p
    rw [List.map_cons]
    by_cases hak : a = k
    · subst hak
      have : (if ((a, u) : String × Endpoint).1 == a then (a, v) else (a, u)) = (a, v) := by simp
      rw [this, lookup_cons_ite, lookup_cons_ite, lookup_cons_ite, ih]
      by_cases hk : k' = a <;> simp [hk]
    · have : (if ((a, u) : String × Endpoint).1 == k then (k, v) else (a, u)) = (a, u) := by
        simp [hak]
      rw [this, lookup_cons_ite, lookup_cons_ite, lookup_cons_ite, ih]
      by_cases hk : k' = k
      · subst hk
        have h1 : ¬ k' = a := fun h => hak h.symm
        simp [h1]
      · simp [hk]

theorem lookup_append_single (m : BastionMapType) (k k' : String) (v : Endpoint) :
    (m ++ [(k, v)]).lookup k' =
      match m.lookup k' with
      | some u => some u
      | none => if k' = k then some v else none := by
  induction m with
  | nil => simp [lookup_cons_ite]
  | cons p m ih =>
    obtain ⟨a, u⟩ := p
    rw [List.cons_append, lookup_cons_ite, lookup_cons_ite, ih]
    by_cases hka : k' = a <;> simp [hka]

theorem lookup_mapSet (m : BastionMapType) (k k' : String) (v : Endpoint) :
    (mapSet m k v).lookup k' = if k' = k then some v else m.lookup k' := by
  unfold mapSet
  cases hk : m.lookup k with
  | some u =>
    simp only [Option.isSome_some, if_true, lookup_map_set, hk, Option.map_some']
  | none =>
    simp only [Option.isSome_none, Bool.false_eq_true, if_false, lookup_append_single]
    by_cases hkk : k' = k
    · subst hkk
      simp [hk]
    · simp only [hkk, if_false]
      cases m.lookup k' <;> rfl


theorem lookup_eq_none_of_not_mem (m : BastionMapType) (k : String)
    (h : k ∉ m.map Prod.fst) : m.lookup k = none := by
  induction m with
  | nil => rfl
  | cons p m ih =>
    obtain ⟨a, v⟩ := p
    simp only [List.map_cons, List.mem_cons, not_or] at h
    rw [lookup_cons_ite, if_neg h.1]
    exact ih h.2

theorem parseStep_global (w : World) (g : BastionMapType) (k : String) :
    ∃ g1, parseStep w ⟨g, none⟩ k = ⟨g1, none⟩ ∧
      ∀ k1, g1.lookup k1 = if k1 = k then (g.lookup k).bind (resolved w) else g.lookup k1 := by
  unfold parseStep
  simp only [Registry.bm, Option.getD_none]
  cases hk : g.lookup k with
  | none =>
    refine ⟨g, rfl, fun k1 => ?_⟩
    by_cases h : k1 = k
    · subst h
      simp [hk]
    · simp [h]
  | some v =>
    dsimp only
    cases hp : (w.ParseHost v).2 with
    | some e =>
      refine ⟨mapDelete g k, rfl, fun k1 => ?_⟩
      rw [lookup_mapDelete]
      simp [resolved, hp]
    | none =>
      refine ⟨mapSet g k (w.ParseHost v).1, rfl, fun k1 => ?_⟩
      rw [lookup_mapSet]
      simp [resolved, hp]

theorem foldl_parseStep_global (w : World) (ks : List String) (hnd : ks.Nodup)
    (g : BastionMapType) :
    ∃ g1, ks.foldl (parseStep w) ⟨g, none⟩ = ⟨g1, none⟩ ∧
      ∀ k1, g1.lookup k1 =
        if k1 ∈ ks then (g.lookup k1).bind (resolved w) else g.lookup k1 := by
  induction ks generalizing g with
  | nil => exact ⟨g, rfl, fun k1 => by simp⟩
  | cons k ks ih =>
    obtain ⟨hk, hks⟩ := List.nodup_cons.mp hnd
    obtain ⟨g1, hstep, hg1⟩ := parseStep_global w g k
    obtain ⟨g2, hfold, hg2⟩ := ih hks g1
    refine ⟨g2, by rw [List.foldl_cons, hstep, hfold], fun k1 => ?_⟩
    rw [hg2, hg1]
    by_cases h : k1 = k
    · subst h
      simp [hk]
    · simp [h]

/-- On the package-level map `ParseAllBastionHost` leaves under every
identifier the resolved form of its entry, and nothing where the host did
not resolve. -/
theorem ParseAllBastionHost_global (w : World) (g : BastionMapType) (k : String) :
    (ParseAllBastionHost w ⟨g, none⟩).bm.lookup k = (g.lookup k).bind (resolved w) := by
  unfold ParseAllBastionHost
  obtain ⟨g1, hfold, hg1⟩ :=
    foldl_parseStep_global w ((g.map Prod.fst).dedup) (List.nodup_dedup _) g
  simp only [Registry.bm, Option.getD_none] at hfold ⊢
  rw [hfold]
  simp only [Option.getD_none]
  rw [hg1]
  by_cases h : k ∈ (g.map Prod.fst).dedup
  · rw [if_pos h]
  · rw [if_neg h, lookup_eq_none_of_not_mem g k (fun hm => h (List.mem_dedup.mpr hm))]
    rfl

theorem parseStep_other (w : World) (g m : BastionMapType) (k : String) :
    ∃ g1 m1, parseStep w ⟨g, some m⟩ k = ⟨g1, some m1⟩ ∧
      ∀ k1, m1.lookup k1 =
        if k1 = k then (m.lookup k).map (fun v => (resolved w v).getD v) else m.lookup k1 := by
  unfold parseStep
  simp only [Registry.bm, Option.getD_some]
  cases hk : m.lookup k with
  | none =>
    refine ⟨g, m, rfl, fun k1 => ?_⟩
    by_cases h : k1 = k
    · subst h
      simp [hk]
    · simp [h]
  | some v =>
    dsimp only
    cases hp : (w.ParseHost v).2 with
    | some e =>
      refine ⟨mapDelete g k, m, rfl, fun k1 => ?_⟩
      by_cases h : k1 = k
      · subst h
        simp [resolved, hp, hk]
      · simp [h]
    | none =>
      refine ⟨g, mapSet m k (w.ParseHost v).1, rfl, fun k1 => ?_⟩
      rw [lookup_mapSet]
      simp [resolved, hp]

theorem foldl_parseStep_other (w : World) (ks : List String) (hnd : ks.Nodup)
    (g m : BastionMapType) :
    ∃ g1 m1, ks.foldl (parseStep w) ⟨g, some m⟩ = ⟨g1, some m1⟩ ∧
      ∀ k1, m1.lookup k1 =
        if k1 ∈ ks then (m.lookup k1).map (fun v => (resolved w v).getD v)
        else m.lookup k1 := by
  induction ks generalizing g m with
  | nil => exact ⟨g, m, rfl, fun k1 => by simp⟩
  | cons k ks ih =>
    obtain ⟨hk, hks⟩ := List.nodup_cons.mp hnd
    obtain ⟨g1, m1, hstep, hm1⟩ := parseStep_other w g m k
    obtain ⟨g2, m2, hfold, hm2⟩ := ih hks g1 m1
    refine ⟨g2, m2, by rw [List.foldl_cons, hstep, hfold], fun k1 => ?_⟩
    rw [hm2, hm1]
    by_cases h : k1 = k
    · subst h
      simp [hk]
    · simp [h]

/-- On a map other than the package-level one `ParseAllBastionHost` leaves
every entry in place: resolved where the host resolves, as it was where the
host does not. -/
theorem ParseAllBastionHost_other (w : World) (g m : BastionMapType) (k : String) :
    (ParseAllBastionHost w ⟨g, some m⟩).bm.lookup k =
      (m.lookup k).map (fun v => (resolved w v).getD v) := by
  unfold ParseAllBastionHost
  obtain ⟨g1, m1, hfold, hm1⟩ :=
    foldl_parseStep_other w ((m.map Prod.fst).dedup) (List.nodup_dedup _) g m
  simp only [Registry.bm, Option.getD_some] at hfold ⊢
  rw [hfold]
  simp only [Option.getD_some]
  rw [hm1]
  by_cases h : k ∈ (m.map Prod.fst).dedup
  · rw [if_pos h]
  · rw [if_neg h, lookup_eq_none_of_not_mem m k (fun hm => h (List.mem_dedup.mpr hm))]
    rfl

/-- On the bastion path, whenever the bastion client was opened and a later
step of `GetSSHClientFromBastion` failed, the invocation ends with the
bastion client open. -/
theorem runViaBastion_server_stage_failure (w : World) (s : Server) (b : Endpoint)
    (hcfg : w.SSHConfig b s.ProbeKind s.ProbeName s.ProbeTimeout = none)
    (hdial : w.Dial b = none)
    (herr : (GetSSHClientFromBastion w s b).err ≠ none) :
    (runViaBastion w s b).trace = [.opened .bastionClient] := by
  revert herr
  unfold runViaBastion GetSSHClientFromBastion
  dsimp only
  rw [hcfg]
  dsimp only
  rw [hdial]
  dsimp only
  repeat' split
  all_goals simp_all

/-- On the direct path every resource opened during the invocation is closed
when `RunSSHCmd` returns. -/
theorem runDirect_closes_all (w : World) (s : Server) (r : Resource) :
    (runDirect w s).trace.count (.closed r) = (runDirect w s).trace.count (.opened r) := by
  unfold runDirect GetSSHClient
  dsimp only
  cases w.SSHConfig s.toEndpoint s.ProbeKind s.ProbeName s.ProbeTimeout with
  | some e => rfl
  | none =>
    dsimp only
    cases w.Dial s.toEndpoint with
    | some e => rfl
    | none =>
      dsimp only
      rw [runSession_trace]
      cases w.NewSession with
      | none => rw [if_pos rfl]; cases r <;> decide
      | some e => rw [if_neg (by simp)]; cases r <;> decide

end EaseProbe
